import Mathlib

/-!
Verification of the data-model type declarations in
`src/frontend/src/types/menu.ts` of the restaurant-ordering-system
repository.

The source file contains only TypeScript interface declarations (MenuItem,
Category, CategoryCreate, CategoryUpdate, Allergen, MenuItemCreate,
MenuItemUpdate).  We embed TypeScript's structural typing for these shapes:

* runtime values are a JSON-like inductive `Value` with an explicit
  `vundef` constructor (TypeScript distinguishes `null`, `undefined` and
  absence of a key);
* an interface is a `Decl`: an association list from field names to a
  `FieldSpec` (an optionality flag plus a Boolean check on the field value),
  exactly transcribing the source declarations; the derivation operators
  `Omit`, `Partial` and `extends` of the source are embedded as `omitKeys`,
  `allOptional` and `extendDecl` acting on declarations;
* `conforms decl v` decides whether a payload value is structurally valid
  for the interface, with payload (object-literal) semantics as TypeScript
  applies to request payloads under strict null checks: every required
  field must be present with a conforming, non-`undefined` value; an
  optional field may be absent or `undefined`; excess keys are rejected
  (TypeScript's excess-property check on literals); a field of type
  `never` declared optional (the source's idiom for forbidding a field)
  admits only `undefined`.

Numbers are carried as `Rat`: no arithmetic is performed on them, they only
serve as inhabitants of the TypeScript type `number`.
-/

/-- A TypeScript/JSON runtime value.  `vundef` is the JavaScript
`undefined`; `vnull` is `null`. -/
inductive Value where
  | vnull : Value
  | vundef : Value
  | vnum : Rat → Value
  | vstr : String → Value
  | vbool : Bool → Value
  | varr : List Value → Value
  | vobj : List (String × Value) → Value

/-- The fields of an object value, in written order. -/
abbrev Fields := List (String × Value)

/-- Is this value the JavaScript `undefined`? -/
def Value.isUndef : Value → Bool
  | .vundef => true
  | _ => false

/-- Value of the TypeScript primitive type `number`. -/
def isNum : Value → Bool
  | .vnum _ => true
  | _ => false

/-- Value of the TypeScript primitive type `string`. -/
def isStr : Value → Bool
  | .vstr _ => true
  | _ => false

/-- Value of the TypeScript primitive type `boolean`. -/
def isBool : Value → Bool
  | .vbool _ => true
  | _ => false

/-- Value of a TypeScript array type `T[]`, given the check for `T`. -/
def isArrOf (p : Value → Bool) : Value → Bool
  | .varr xs => xs.all p
  | _ => false

/-- Value of a TypeScript index-signature type `{ [key: string]: T }`,
given the check for `T`. -/
def isStrMap (p : Value → Bool) : Value → Bool
  | .vobj fs => fs.all (fun kv => p kv.2)
  | _ => false

/-- Value of a nullable type `T | null`, given the check for `T`. -/
def isNullable (p : Value → Bool) : Value → Bool
  | .vnull => true
  | v => p v

/-- What an interface declares about one field: whether the field is
optional (declared with `?`), and the check its declared type imposes on a
present value. -/
structure FieldSpec where
  optional : Bool
  check : Value → Bool

/-- A required field of the given type (TypeScript `k: T`). -/
def req (c : Value → Bool) : FieldSpec := ⟨false, c⟩

/-- An optional field of the given type (TypeScript `k?: T`). -/
def opt (c : Value → Bool) : FieldSpec := ⟨true, c⟩

/-- The source idiom `k?: never`: the field is forbidden to hold any
defined value (only absence or `undefined` is admitted). -/
def neverField : FieldSpec := ⟨true, fun _ => false⟩

/-- An interface declaration: field names with their specs, in source
order. -/
abbrev Decl := List (String × FieldSpec)

/-- First declared spec for a field name, if any. -/
def lookupSpec : Decl → String → Option FieldSpec
  | [], _ => none
  | (k₁, s) :: d, k => if k₁ == k then some s else lookupSpec d k

/-- Does the interface declare a field of this name? -/
def declaresKey (d : Decl) (k : String) : Bool :=
  d.any (fun ks => ks.1 == k)

/-- The check a declaration imposes on a present value of field `k`
(false when `k` is undeclared). -/
def specCheck (d : Decl) (k : String) (w : Value) : Bool :=
  match lookupSpec d k with
  | some s => s.check w
  | none => false

/-- First value stored under a key in an object, if any. -/
def getField : Fields → String → Option Value
  | [], _ => none
  | (k₁, w) :: fs, k => if k₁ == k then some w else getField fs k

/-- Does a (possibly absent) field value satisfy a spec?  Absent is
allowed only for optional fields; a present value must pass the check,
except that an optional field may also hold `undefined`. -/
def valOk (s : FieldSpec) : Option Value → Bool
  | none => s.optional
  | some w => s.check w || (s.optional && w.isUndef)

/-- Does one field of an object satisfy its spec? -/
def fieldOk (fs : Fields) (k : String) (s : FieldSpec) : Bool :=
  valOk s (getField fs k)

/-- Structural validity of a payload value for an interface: the value is
an object, every declared field is satisfied, and every key of the object
is declared (excess-property check). -/
def conforms (decl : Decl) : Value → Bool
  | .vobj fs =>
      decl.all (fun ks => fieldOk fs ks.1 ks.2) &&
      fs.all (fun kv => declaresKey decl kv.1)
  | _ => false

/-- The `Omit` of the source: drop the declared fields with the given
names. -/
def omitKeys (d : Decl) (ks : List String) : Decl :=
  d.filter (fun kv => !(ks.contains kv.1))

/-- The `Partial` of the source: the same fields, every one optional. -/
def allOptional (d : Decl) : Decl :=
  d.map (fun kv => (kv.1, FieldSpec.mk true kv.2.check))

/-- `interface X extends B { ... }`: the base declaration with the
re-declared fields overridden by the extension. -/
def extendDecl (base ext : Decl) : Decl :=
  base.filter (fun kv => !(declaresKey ext kv.1)) ++ ext

/-- `export interface Allergen` of the source: numeric `id`, string
`name`, optional string `description`. -/
def AllergenDecl : Decl :=
  [("id", req isNum), ("name", req isStr), ("description", opt isStr)]

/-- `export interface MenuItem` of the source, field for field. -/
def MenuItemDecl : Decl :=
  [("id", req isNum),
   ("name", req isStr),
   ("description", req isStr),
   ("price", req isNum),
   ("category_id", req isNum),
   ("category", req isStr),
   ("is_active", req isBool),
   ("is_available", req isBool),
   ("is_vegetarian", req isBool),
   ("is_vegan", req isBool),
   ("is_gluten_free", req isBool),
   ("spice_level", req isNum),
   ("preparation_time", req isNum),
   ("average_rating", req isNum),
   ("rating_count", req isNum),
   ("allergens", req (isArrOf (conforms AllergenDecl))),
   ("customization_options", req (isStrMap (isArrOf isStr))),
   ("image_url", opt isStr),
   ("created_at", req isStr),
   ("updated_at", req isStr)]

/-- `export interface Category` of the source: `description` is required
but nullable (`string | null`). -/
def CategoryDecl : Decl :=
  [("id", req isNum),
   ("name", req isStr),
   ("description", req (isNullable isStr)),
   ("is_active", req isBool),
   ("created_at", req isStr),
   ("updated_at", req isStr)]

/-- `export interface CategoryCreate` of the source. -/
def CategoryCreateDecl : Decl :=
  [("name", req isStr),
   ("description", req (isNullable isStr)),
   ("is_active", req isBool)]

/-- `export interface CategoryUpdate extends CategoryCreate { id?: never }`
of the source. -/
def CategoryUpdateDecl : Decl :=
  extendDecl CategoryCreateDecl [("id", neverField)]

/-- The six keys the source omits from `MenuItem` to form
`MenuItemCreate`. -/
def createOmitted : List String :=
  ["id", "created_at", "updated_at", "category", "average_rating", "rating_count"]

/-- `export interface MenuItemCreate extends Omit<MenuItem, 'id' |
'created_at' | 'updated_at' | 'category' | 'average_rating' |
'rating_count'> { category_id: number; allergen_ids: number[] }` of the
source. -/
def MenuItemCreateDecl : Decl :=
  extendDecl (omitKeys MenuItemDecl createOmitted)
    [("category_id", req isNum), ("allergen_ids", req (isArrOf isNum))]

/-- `export interface MenuItemUpdate extends Partial<MenuItemCreate>
{ id?: never }` of the source. -/
def MenuItemUpdateDecl : Decl :=
  extendDecl (allOptional MenuItemCreateDecl) [("id", neverField)]

/-- A concrete Allergen payload (`description` absent, which the source
allows since `description?: string`). -/
def sampleAllergen : Value := .vobj [("id", .vnum 1), ("name", .vstr "peanut")]

/-- A concrete structurally valid MenuItem payload (`image_url` absent). -/
def sampleMenuItemFields : Fields :=
  [("id", .vnum 1), ("name", .vstr "Pad Thai"), ("description", .vstr "noodles"),
   ("price", .vnum (999/100)), ("category_id", .vnum 2), ("category", .vstr "Mains"),
   ("is_active", .vbool true), ("is_available", .vbool true),
   ("is_vegetarian", .vbool false), ("is_vegan", .vbool false),
   ("is_gluten_free", .vbool true), ("spice_level", .vnum 3),
   ("preparation_time", .vnum 15), ("average_rating", .vnum (45/10)),
   ("rating_count", .vnum 12), ("allergens", .varr [sampleAllergen]),
   ("customization_options", .vobj [("size", .varr [.vstr "small", .vstr "large"])]),
   ("created_at", .vstr "2024-01-01"), ("updated_at", .vstr "2024-01-02")]

/-- A concrete structurally valid MenuItemCreate payload: the sample
MenuItem with the six omitted fields removed and `allergen_ids` added. -/
def sampleCreateFields : Fields :=
  [("name", .vstr "Pad Thai"), ("description", .vstr "noodles"),
   ("price", .vnum (999/100)), ("category_id", .vnum 2),
   ("is_active", .vbool true), ("is_available", .vbool true),
   ("is_vegetarian", .vbool false), ("is_vegan", .vbool false),
   ("is_gluten_free", .vbool true), ("spice_level", .vnum 3),
   ("preparation_time", .vnum 15), ("allergens", .varr [sampleAllergen]),
   ("customization_options", .vobj [("size", .varr [.vstr "small", .vstr "large"])]),
   ("allergen_ids", .varr [.vnum 1])]

/-- A concrete structurally valid Category payload whose `description`
holds `null`. -/
def sampleCategoryFields : Fields :=
  [("id", .vnum 7), ("name", .vstr "Desserts"), ("description", .vnull),
   ("is_active", .vbool true),
   ("created_at", .vstr "2024-01-01"), ("updated_at", .vstr "2024-01-02")]

/-- The CategoryUpdate payload of the spec's fourth testable property. -/
def dessertsUpdateFields : Fields :=
  [("name", .vstr "Desserts"), ("description", .vnull), ("is_active", .vbool true)]

/-- Membership in a declaration from a successful spec lookup. -/
theorem lookupSpec_mem {d : Decl} {k : String} {s : FieldSpec}
    (h : lookupSpec d k = some s) : (k, s) ∈ d := by
  induction d with
  | nil => exact absurd h (by simp [lookupSpec])
  | cons ks d ih =>
    obtain ⟨k₁, s₁⟩ := ks
    rw [lookupSpec] at h
    by_cases hb : (k₁ == k) = true
    · rw [if_pos hb] at h
      injection h with h
      subst h
      have hek : k₁ = k := eq_of_beq hb
      subst hek
      exact List.mem_cons_self _ _
    · rw [if_neg hb] at h
      exact List.mem_cons_of_mem _ (ih h)

/-- Membership in an object's fields from a successful field lookup. -/
theorem getField_mem {fs : Fields} {k : String} {w : Value}
    (h : getField fs k = some w) : (k, w) ∈ fs := by
  induction fs with
  | nil => exact absurd h (by simp [getField])
  | cons kv fs ih =>
    obtain ⟨k₁, w₁⟩ := kv
    rw [getField] at h
    by_cases hb : (k₁ == k) = true
    · rw [if_pos hb] at h
      injection h with h
      subst h
      have hek : k₁ = k := eq_of_beq hb
      subst hek
      exact List.mem_cons_self _ _
    · rw [if_neg hb] at h
      exact List.mem_cons_of_mem _ (ih h)

/-- Structural validity of an object, spelled out per field. -/
theorem conforms_obj_iff (decl : Decl) (fs : Fields) :
    conforms decl (.vobj fs) = true ↔
      ((∀ ks ∈ decl, fieldOk fs ks.1 ks.2 = true) ∧
       (∀ kv ∈ fs, declaresKey decl kv.1 = true)) := by
  simp [conforms, Bool.and_eq_true, List.all_eq_true]

/-- Every field a declaration looks up is satisfied in a conforming
object. -/
theorem fieldOk_of_conforms {decl : Decl} {fs : Fields} {k : String} {s : FieldSpec}
    (h : conforms decl (.vobj fs) = true) (hk : lookupSpec decl k = some s) :
    fieldOk fs k s = true :=
  ((conforms_obj_iff decl fs).1 h).1 (k, s) (lookupSpec_mem hk)

/-- A conforming object has no key the declaration does not declare. -/
theorem absent_of_undeclared {decl : Decl} {fs : Fields} {k : String}
    (h : conforms decl (.vobj fs) = true) (hk : declaresKey decl k = false) :
    getField fs k = none := by
  cases hg : getField fs k with
  | none => rfl
  | some w =>
    have hmem := getField_mem hg
    have h2 : declaresKey decl k = true :=
      ((conforms_obj_iff decl fs).1 h).2 (k, w) hmem
    rw [hk] at h2
    exact Bool.noConfusion h2

/-- A required field of a conforming object is present with a defined
value passing its check. -/
theorem required_present {decl : Decl} {fs : Fields} {k : String} {c : Value → Bool}
    (h : conforms decl (.vobj fs) = true) (hk : lookupSpec decl k = some (req c)) :
    ∃ w, getField fs k = some w ∧ c w = true := by
  have hf := fieldOk_of_conforms h hk
  unfold fieldOk at hf
  cases hg : getField fs k with
  | none => rw [hg] at hf; exact absurd hf (by simp [valOk, req])
  | some w =>
    rw [hg] at hf
    exact ⟨w, rfl, by simpa [valOk, req] using hf⟩

/-- An optional field of a conforming object, when present, passes its
check or is `undefined`. -/
theorem optional_checked {decl : Decl} {fs : Fields} {k : String} {c : Value → Bool} {w : Value}
    (h : conforms decl (.vobj fs) = true) (hk : lookupSpec decl k = some (opt c))
    (hw : getField fs k = some w) : (c w || w.isUndef) = true := by
  have hf := fieldOk_of_conforms h hk
  unfold fieldOk at hf
  rw [hw] at hf
  simpa [valOk, opt] using hf

/-- A field declared `?: never`, when present in a conforming object,
holds `undefined`. -/
theorem neverField_isUndef {decl : Decl} {fs : Fields} {k : String} {w : Value}
    (h : conforms decl (.vobj fs) = true) (hk : lookupSpec decl k = some neverField)
    (hw : getField fs k = some w) : w.isUndef = true := by
  have hf := fieldOk_of_conforms h hk
  unfold fieldOk at hf
  rw [hw] at hf
  simpa [valOk, neverField] using hf

/-- An object violating one looked-up field spec does not conform. -/
theorem conforms_false_of_badField {decl : Decl} {fs : Fields} {k : String} {s : FieldSpec}
    (hk : lookupSpec decl k = some s) (hbad : fieldOk fs k s = false) :
    conforms decl (.vobj fs) = false := by
  cases hc : conforms decl (.vobj fs) with
  | false => rfl
  | true =>
    have := fieldOk_of_conforms hc hk
    rw [hbad] at this
    exact Bool.noConfusion this

/-- Field lookup through an append, when the key is found on the left. -/
theorem getField_append_left {fs₁ : Fields} (fs₂ : Fields) {k : String} {w : Value}
    (h : getField fs₁ k = some w) : getField (fs₁ ++ fs₂) k = some w := by
  induction fs₁ with
  | nil => exact absurd h (by simp [getField])
  | cons kv fs ih =>
    obtain ⟨k₁, w₁⟩ := kv
    rw [List.cons_append, getField]
    rw [getField] at h
    by_cases hb : (k₁ == k) = true
    · rwa [if_pos hb] at h ⊢
    · rw [if_neg hb] at h ⊢
      exact ih h

/-- Field lookup through an append, when the key is absent on the left. -/
theorem getField_append_right {fs₁ : Fields} (fs₂ : Fields) {k : String}
    (h : getField fs₁ k = none) : getField (fs₁ ++ fs₂) k = getField fs₂ k := by
  induction fs₁ with
  | nil => rfl
  | cons kv fs ih =>
    obtain ⟨k₁, w₁⟩ := kv
    rw [List.cons_append, getField]
    rw [getField] at h
    by_cases hb : (k₁ == k) = true
    · rw [if_pos hb] at h; exact absurd h (by simp)
    · rw [if_neg hb] at h ⊢
      exact ih h

/-- Filtering an object's fields by a key predicate does not change the
lookup of a key the predicate keeps. -/
theorem getField_filter (p : String → Bool) (fs : Fields) {k : String}
    (hk : p k = true) :
    getField (fs.filter fun kv => p kv.1) k = getField fs k := by
  induction fs with
  | nil => rfl
  | cons kv fs ih =>
    obtain ⟨k₁, w₁⟩ := kv
    by_cases hb : (k₁ == k) = true
    · have hek : k₁ = k := eq_of_beq hb
      subst hek
      rw [@List.filter_cons_of_pos _ (fun kv => p kv.1) (k₁, w₁) fs hk,
        getField, getField, if_pos hb, if_pos hb]
    · cases hc : p k₁ with
      | true =>
        rw [@List.filter_cons_of_pos _ (fun kv => p kv.1) (k₁, w₁) fs hc,
          getField, getField, if_neg hb, if_neg hb]
        exact ih
      | false =>
        rw [@List.filter_cons_of_neg _ (fun kv => p kv.1) (k₁, w₁) fs
            (by simp [hc]),
          getField, if_neg hb]
        exact ih

/-- Removing fields whose keys lie in `ks` does not change the lookup of a
key outside `ks`. -/
theorem getField_filterKeys (fs : Fields) (ks : List String) {k : String}
    (hk : ks.contains k = false) :
    getField (fs.filter fun kv => !(ks.contains kv.1)) k = getField fs k :=
  getField_filter (fun k₂ => !(ks.contains k₂)) fs (by simpa using hk)

/-- A satisfied field stays satisfied after removing fields with other
keys and appending fields with other keys. -/
theorem fieldOk_transform (new : Fields) {fs : Fields} {ks : List String} {k : String}
    {s : FieldSpec} (hk : ks.contains k = false) (hnew : getField new k = none)
    (h : fieldOk fs k s = true) :
    fieldOk ((fs.filter fun kv => !(ks.contains kv.1)) ++ new) k s = true := by
  unfold fieldOk at h ⊢
  cases hg : getField fs k with
  | some w =>
    have h1 : getField (fs.filter fun kv => !(ks.contains kv.1)) k = some w := by
      rw [getField_filterKeys fs ks hk, hg]
    rw [getField_append_left new h1]
    rwa [hg] at h
  | none =>
    have h1 : getField (fs.filter fun kv => !(ks.contains kv.1)) k = none := by
      rw [getField_filterKeys fs ks hk, hg]
    rw [getField_append_right new h1, hnew]
    rwa [hg] at h

/-- Every MenuItem field not omitted by the source's `Omit` is declared by
MenuItemCreate. -/
theorem declaresKey_create_of_item {k : String}
    (h : declaresKey MenuItemDecl k = true)
    (h2 : createOmitted.contains k = false) :
    declaresKey MenuItemCreateDecl k = true := by
  simp only [declaresKey, MenuItemDecl, List.any_cons, List.any_nil,
    Bool.or_eq_true, Bool.or_false] at h
  rcases h with h|h|h|h|h|h|h|h|h|h|h|h|h|h|h|h|h|h|h|h
  all_goals (have hk := eq_of_beq h; subst hk; revert h2; decide)

/-- Dropping the six `Omit`-ted fields from a conforming MenuItem object
and appending an `allergen_ids` list of numbers yields a conforming
MenuItemCreate object. -/
theorem create_conforms_of_item_conforms (fs : Fields) (ids : List Value)
    (h : conforms MenuItemDecl (.vobj fs) = true)
    (hnum : ids.all isNum = true) :
    conforms MenuItemCreateDecl
      (.vobj ((fs.filter fun kv => !(createOmitted.contains kv.1)) ++
        [("allergen_ids", .varr ids)])) = true := by
  have hmem := (conforms_obj_iff MenuItemDecl fs).1 h
  rw [conforms_obj_iff]
  constructor
  · intro ks hks
    have hdecl : MenuItemCreateDecl =
      [("name", req isStr), ("description", req isStr), ("price", req isNum),
       ("is_active", req isBool), ("is_available", req isBool),
       ("is_vegetarian", req isBool), ("is_vegan", req isBool),
       ("is_gluten_free", req isBool), ("spice_level", req isNum),
       ("preparation_time", req isNum),
       ("allergens", req (isArrOf (conforms AllergenDecl))),
       ("customization_options", req (isStrMap (isArrOf isStr))),
       ("image_url", opt isStr),
       ("category_id", req isNum), ("allergen_ids", req (isArrOf isNum))] := by
      rfl
    rw [hdecl] at hks
    simp only [List.mem_cons, List.not_mem_nil, or_false] at hks
    rcases hks with rfl|rfl|rfl|rfl|rfl|rfl|rfl|rfl|rfl|rfl|rfl|rfl|rfl|rfl|rfl
    all_goals dsimp only
    all_goals
      first
      | exact fieldOk_transform _ rfl rfl (fieldOk_of_conforms h rfl)
      | · have h0 : getField fs "allergen_ids" = none :=
            absent_of_undeclared h (by decide)
          have h1 : getField (fs.filter fun kv => !(createOmitted.contains kv.1))
              "allergen_ids" = none := by
            rw [getField_filterKeys fs createOmitted (by decide), h0]
          have h2 : getField
              ((fs.filter fun kv => !(createOmitted.contains kv.1)) ++
                [("allergen_ids", Value.varr ids)]) "allergen_ids" =
              some (.varr ids) := by
            rw [getField_append_right _ h1]
            rfl
          unfold fieldOk
          rw [h2]
          simp [valOk, req, isArrOf, hnum]
  · intro kv hkv
    rw [List.mem_append] at hkv
    rcases hkv with hkv | hkv
    · rw [List.mem_filter] at hkv
      obtain ⟨hmemfs, hpass⟩ := hkv
      have hd := hmem.2 kv hmemfs
      exact declaresKey_create_of_item hd (by simpa using hpass)
    · rw [List.mem_singleton] at hkv
      subst hkv
      show declaresKey MenuItemCreateDecl "allergen_ids" = true
      decide

/-- The rational 5/2, built with the raw constructor so that its
denominator reduces definitionally. -/
def ratFiveHalves : Rat := ⟨5, 2, by decide, by norm_num⟩

/-- Value of the refinement "integer number" claimed by the spec for
rating_count (TypeScript itself cannot express this refinement). -/
def isInt : Value → Bool
  | .vnum q => q.den == 1
  | _ => false

/-- Modelled from the spec: the MenuItem read shape exactly as the spec's
field list states it, with rating_count an integer. -/
def menuItemShapeClaimed : Decl :=
  [("id", req isNum),
   ("name", req isStr),
   ("description", req isStr),
   ("price", req isNum),
   ("category_id", req isNum),
   ("category", req isStr),
   ("is_active", req isBool),
   ("is_available", req isBool),
   ("is_vegetarian", req isBool),
   ("is_vegan", req isBool),
   ("is_gluten_free", req isBool),
   ("spice_level", req isNum),
   ("preparation_time", req isNum),
   ("average_rating", req isNum),
   ("rating_count", req isInt),
   ("allergens", req (isArrOf (conforms AllergenDecl))),
   ("customization_options", req (isStrMap (isArrOf isStr))),
   ("image_url", opt isStr),
   ("created_at", req isStr),
   ("updated_at", req isStr)]

/-- Modelled from the spec: the MenuItem read shape of the spec's field
list with rating_count weakened to numeric, as the code has it. -/
def menuItemShapeAmended : Decl :=
  [("id", req isNum),
   ("name", req isStr),
   ("description", req isStr),
   ("price", req isNum),
   ("category_id", req isNum),
   ("category", req isStr),
   ("is_active", req isBool),
   ("is_available", req isBool),
   ("is_vegetarian", req isBool),
   ("is_vegan", req isBool),
   ("is_gluten_free", req isBool),
   ("spice_level", req isNum),
   ("preparation_time", req isNum),
   ("average_rating", req isNum),
   ("rating_count", req isNum),
   ("allergens", req (isArrOf (conforms AllergenDecl))),
   ("customization_options", req (isStrMap (isArrOf isStr))),
   ("image_url", opt isStr),
   ("created_at", req isStr),
   ("updated_at", req isStr)]

/-- The sample MenuItem with a fractional rating_count of 5/2. -/
def fractionalRatingFields : Fields :=
  [("id", .vnum 1), ("name", .vstr "Pad Thai"), ("description", .vstr "noodles"),
   ("price", .vnum (999/100)), ("category_id", .vnum 2), ("category", .vstr "Mains"),
   ("is_active", .vbool true), ("is_available", .vbool true),
   ("is_vegetarian", .vbool false), ("is_vegan", .vbool false),
   ("is_gluten_free", .vbool true), ("spice_level", .vnum 3),
   ("preparation_time", .vnum 15), ("average_rating", .vnum (45/10)),
   ("rating_count", .vnum ratFiveHalves), ("allergens", .varr [sampleAllergen]),
   ("customization_options", .vobj [("size", .varr [.vstr "small", .vstr "large"])]),
   ("created_at", .vstr "2024-01-01"), ("updated_at", .vstr "2024-01-02")]

/-- C1 (counterexample): the claim that a structurally valid
MenuItemCreate value has no `allergens` field is false — the source's
`Omit` does not remove `allergens`, so this valid MenuItemCreate payload
carries it, and dropping it even destroys validity. -/
theorem C1_counterexample :
    conforms MenuItemCreateDecl (.vobj sampleCreateFields) = true ∧
    (getField sampleCreateFields "allergens").isSome = true ∧
    conforms MenuItemCreateDecl
      (.vobj (sampleCreateFields.filter fun kv => !(kv.1 == "allergens"))) = false := by
  decide

/-- C1 (amended): every structurally valid MenuItemCreate value has an
`allergen_ids` field holding a sequence of numbers, and in addition still
has the required `allergens` field holding full Allergen objects, since
`allergen_ids` is added without removing `allergens`. -/
theorem C1_create_allergen_fields (fs : Fields)
    (h : conforms MenuItemCreateDecl (.vobj fs) = true) :
    (∃ w, getField fs "allergen_ids" = some w ∧ isArrOf isNum w = true) ∧
    (∃ w, getField fs "allergens" = some w ∧
      isArrOf (conforms AllergenDecl) w = true) :=
  ⟨required_present h rfl, required_present h rfl⟩

/-- C1 (witness): the amended statement at the sample create payload. -/
theorem C1_create_allergen_fields_witness :
    (∃ w, getField sampleCreateFields "allergen_ids" = some w ∧
      isArrOf isNum w = true) ∧
    (∃ w, getField sampleCreateFields "allergens" = some w ∧
      isArrOf (conforms AllergenDecl) w = true) :=
  C1_create_allergen_fields sampleCreateFields (by decide)

/-- C2 (counterexample): the claim that `name` is optional in a valid
CategoryUpdate is false — this payload omitting only `name` does not
conform, and neither does the empty patch, though the all-optional reading
would accept both. -/
theorem C2_counterexample :
    conforms CategoryUpdateDecl
      (.vobj [("description", .vnull), ("is_active", .vbool true)]) = false ∧
    conforms CategoryUpdateDecl (.vobj []) = false := by
  decide

/-- C2 (amended): MenuItemUpdate is indeed the create shape with every
field made optional, but CategoryUpdate keeps every CategoryCreate field
required: name, description and is_active are non-optional and must be
present in every conforming CategoryUpdate object. -/
theorem C2_update_shapes (fs : Fields)
    (h : conforms CategoryUpdateDecl (.vobj fs) = true) :
    MenuItemUpdateDecl.all (fun kv => kv.2.optional) = true ∧
    ((lookupSpec CategoryUpdateDecl "name").map FieldSpec.optional = some false ∧
     (lookupSpec CategoryUpdateDecl "description").map FieldSpec.optional = some false ∧
     (lookupSpec CategoryUpdateDecl "is_active").map FieldSpec.optional = some false) ∧
    ((getField fs "name").isSome = true ∧
     (getField fs "description").isSome = true ∧
     (getField fs "is_active").isSome = true) := by
  refine ⟨by rfl, ⟨rfl, rfl, rfl⟩, ?_, ?_, ?_⟩
  · obtain ⟨w, hw, -⟩ :=
      required_present h (rfl : lookupSpec CategoryUpdateDecl "name" = some (req isStr))
    rw [hw]; rfl
  · obtain ⟨w, hw, -⟩ :=
      required_present h
        (rfl : lookupSpec CategoryUpdateDecl "description" = some (req (isNullable isStr)))
    rw [hw]; rfl
  · obtain ⟨w, hw, -⟩ :=
      required_present h
        (rfl : lookupSpec CategoryUpdateDecl "is_active" = some (req isBool))
    rw [hw]; rfl

/-- C2 (witness): the amended statement at the Desserts update payload. -/
theorem C2_update_shapes_witness :
    MenuItemUpdateDecl.all (fun kv => kv.2.optional) = true ∧
    ((lookupSpec CategoryUpdateDecl "name").map FieldSpec.optional = some false ∧
     (lookupSpec CategoryUpdateDecl "description").map FieldSpec.optional = some false ∧
     (lookupSpec CategoryUpdateDecl "is_active").map FieldSpec.optional = some false) ∧
    ((getField dessertsUpdateFields "name").isSome = true ∧
     (getField dessertsUpdateFields "description").isSome = true ∧
     (getField dessertsUpdateFields "is_active").isSome = true) :=
  C2_update_shapes dessertsUpdateFields (by decide)

/-- C3: an update payload carrying a defined (non-undefined) `id` value is
structurally invalid for both CategoryUpdate and MenuItemUpdate, while the
CategoryUpdate payload with name "Desserts", null description and
is_active true (and no id) conforms. -/
theorem C3_id_forbidden_in_updates :
    (∀ fs w, getField fs "id" = some w → w.isUndef = false →
      conforms CategoryUpdateDecl (.vobj fs) = false ∧
      conforms MenuItemUpdateDecl (.vobj fs) = false) ∧
    conforms CategoryUpdateDecl (.vobj dessertsUpdateFields) = true := by
  constructor
  · intro fs w hw hu
    constructor
    · refine conforms_false_of_badField
        (rfl : lookupSpec CategoryUpdateDecl "id" = some neverField) ?_
      unfold fieldOk
      rw [hw]
      simp [valOk, neverField, hu]
    · refine conforms_false_of_badField
        (rfl : lookupSpec MenuItemUpdateDecl "id" = some neverField) ?_
      unfold fieldOk
      rw [hw]
      simp [valOk, neverField, hu]
  · decide

/-- C3 (witness): the Desserts payload extended with a numeric id is
rejected by CategoryUpdate. -/
theorem C3_id_forbidden_in_updates_witness :
    conforms CategoryUpdateDecl
      (.vobj (dessertsUpdateFields ++ [("id", Value.vnum 3)])) = false :=
  (C3_id_forbidden_in_updates.1 (dessertsUpdateFields ++ [("id", Value.vnum 3)])
    (Value.vnum 3) rfl rfl).1

/-- C4: the MenuItemUpdate payload holding only a numeric price conforms,
and every field MenuItemUpdate declares is optional. -/
theorem C4_price_only_update :
    conforms MenuItemUpdateDecl (.vobj [("price", .vnum (999/100))]) = true ∧
    MenuItemUpdateDecl.all (fun kv => kv.2.optional) = true := by
  decide

/-- C5: removing exactly the fields id, created_at, updated_at, category,
average_rating and rating_count from a structurally valid MenuItem object
and adding a non-empty allergen_ids sequence of numbers yields a
structurally valid MenuItemCreate value. -/
theorem C5_menuItem_to_create (fs : Fields) (ids : List Value)
    (h : conforms MenuItemDecl (.vobj fs) = true)
    (_hne : ids.isEmpty = false) (hnum : ids.all isNum = true) :
    conforms MenuItemCreateDecl
      (.vobj ((fs.filter fun kv => !(createOmitted.contains kv.1)) ++
        [("allergen_ids", .varr ids)])) = true :=
  create_conforms_of_item_conforms fs ids h hnum

/-- C5 (witness): the transformation applied to the sample MenuItem with
the one-element id list [1]. -/
theorem C5_menuItem_to_create_witness :
    conforms MenuItemCreateDecl
      (.vobj ((sampleMenuItemFields.filter fun kv => !(createOmitted.contains kv.1)) ++
        [("allergen_ids", .varr [.vnum 1])])) = true :=
  C5_menuItem_to_create sampleMenuItemFields [.vnum 1] (by decide) (by decide) (by decide)

/-- C6: nullability and optionality are independent: Category.description
is required but may hold null (the sample with a null description
conforms); MenuItem.image_url and Allergen.description may be absent (the
samples omitting them conform) but, when present, may not hold null. -/
theorem C6_nullable_vs_optional :
    (∀ fs, conforms CategoryDecl (.vobj fs) = true →
      (getField fs "description").isSome = true) ∧
    conforms CategoryDecl (.vobj sampleCategoryFields) = true ∧
    conforms MenuItemDecl (.vobj sampleMenuItemFields) = true ∧
    conforms AllergenDecl sampleAllergen = true ∧
    (∀ fs, getField fs "image_url" = some Value.vnull →
      conforms MenuItemDecl (.vobj fs) = false) ∧
    (∀ fs, getField fs "description" = some Value.vnull →
      conforms AllergenDecl (.vobj fs) = false) := by
  refine ⟨?_, by decide, by decide, by decide, ?_, ?_⟩
  · intro fs h
    obtain ⟨w, hw, -⟩ :=
      required_present h
        (rfl : lookupSpec CategoryDecl "description" = some (req (isNullable isStr)))
    rw [hw]; rfl
  · intro fs h
    refine conforms_false_of_badField
      (rfl : lookupSpec MenuItemDecl "image_url" = some (opt isStr)) ?_
    unfold fieldOk
    rw [h]; rfl
  · intro fs h
    refine conforms_false_of_badField
      (rfl : lookupSpec AllergenDecl "description" = some (opt isStr)) ?_
    unfold fieldOk
    rw [h]; rfl

/-- C6 (witness): a present-but-null image_url is rejected by MenuItem. -/
theorem C6_nullable_vs_optional_witness :
    conforms MenuItemDecl (.vobj [("image_url", Value.vnull)]) = false :=
  C6_nullable_vs_optional.2.2.2.2.1 [("image_url", Value.vnull)] rfl

/-- C7 (counterexample): the claim that the read shape has an integer
rating_count is false — the source declares rating_count as `number`, so
this MenuItem with rating_count 5/2 conforms to the code's shape while
failing the spec's claimed shape. -/
theorem C7_counterexample :
    conforms MenuItemDecl (.vobj fractionalRatingFields) = true ∧
    conforms menuItemShapeClaimed (.vobj fractionalRatingFields) = false := by
  decide

/-- C7 (amended): with rating_count weakened from integer to numeric, the
spec's exhaustive field list describes exactly the source's MenuItem
shape: both declarations accept precisely the same values. -/
theorem C7_read_shape_exact :
    ∀ v, conforms menuItemShapeAmended v = conforms MenuItemDecl v :=
  fun _ => rfl

/-- C8: category_id in MenuItemCreate is required and numeric, and the
explicit redeclaration leaves both its optionality and its check identical
to MenuItem's category_id and to the plain Omit without redeclaration. -/
theorem C8_category_id_required (fs : Fields)
    (h : conforms MenuItemCreateDecl (.vobj fs) = true) :
    (∃ w, getField fs "category_id" = some w ∧ isNum w = true) ∧
    ((lookupSpec MenuItemCreateDecl "category_id").map FieldSpec.optional =
      (lookupSpec MenuItemDecl "category_id").map FieldSpec.optional) ∧
    (∀ w, specCheck MenuItemCreateDecl "category_id" w =
      specCheck MenuItemDecl "category_id" w) ∧
    ((lookupSpec MenuItemCreateDecl "category_id").map FieldSpec.optional =
      (lookupSpec (omitKeys MenuItemDecl createOmitted) "category_id").map
        FieldSpec.optional) ∧
    (∀ w, specCheck MenuItemCreateDecl "category_id" w =
      specCheck (omitKeys MenuItemDecl createOmitted) "category_id" w) :=
  ⟨required_present h rfl, rfl, fun _ => rfl, rfl, fun _ => rfl⟩

/-- C8 (witness): the statement at the sample create payload. -/
theorem C8_category_id_required_witness :
    ∃ w, getField sampleCreateFields "category_id" = some w ∧ isNum w = true :=
  (C8_category_id_required sampleCreateFields (by decide)).1

/-- C9: the id prohibition rejects only a defined id value — update
payloads carrying the id key with the undefined value still conform, and
in every conforming update object a present id is undefined. -/
theorem C9_id_undefined_allowed :
    conforms CategoryUpdateDecl
      (.vobj (dessertsUpdateFields ++ [("id", Value.vundef)])) = true ∧
    conforms MenuItemUpdateDecl (.vobj [("id", Value.vundef)]) = true ∧
    (∀ fs w, conforms CategoryUpdateDecl (.vobj fs) = true →
      getField fs "id" = some w → w.isUndef = true) ∧
    (∀ fs w, conforms MenuItemUpdateDecl (.vobj fs) = true →
      getField fs "id" = some w → w.isUndef = true) := by
  refine ⟨by decide, by decide, ?_, ?_⟩
  · intro fs w h hw
    exact neverField_isUndef h
      (rfl : lookupSpec CategoryUpdateDecl "id" = some neverField) hw
  · intro fs w h hw
    exact neverField_isUndef h
      (rfl : lookupSpec MenuItemUpdateDecl "id" = some neverField) hw

/-- C9 (witness): the universal part applied to the conforming payload
that carries id: undefined. -/
theorem C9_id_undefined_allowed_witness :
    Value.isUndef Value.vundef = true :=
  C9_id_undefined_allowed.2.2.1 (dessertsUpdateFields ++ [("id", Value.vundef)])
    Value.vundef (by decide) rfl

/-- C10: MenuItemUpdate declares allergens as an optional field whose
check is exactly a sequence of full Allergen objects; a payload embedding
an Allergen object conforms, and a present allergens value in any
conforming update is such a sequence or undefined. -/
theorem C10_update_allergens_objects :
    ((lookupSpec MenuItemUpdateDecl "allergens").map FieldSpec.optional = some true) ∧
    (∀ w, specCheck MenuItemUpdateDecl "allergens" w =
      isArrOf (conforms AllergenDecl) w) ∧
    conforms MenuItemUpdateDecl (.vobj [("allergens", .varr [sampleAllergen])]) = true ∧
    (∀ fs w, conforms MenuItemUpdateDecl (.vobj fs) = true →
      getField fs "allergens" = some w →
      (isArrOf (conforms AllergenDecl) w || w.isUndef) = true) := by
  refine ⟨rfl, fun _ => rfl, by decide, ?_⟩
  intro fs w h hw
  exact optional_checked h
    (rfl : lookupSpec MenuItemUpdateDecl "allergens" =
      some (opt (isArrOf (conforms AllergenDecl)))) hw

/-- C10 (witness): the universal part applied to the payload embedding a
full Allergen object. -/
theorem C10_update_allergens_objects_witness :
    (isArrOf (conforms AllergenDecl) (Value.varr [sampleAllergen]) ||
      Value.isUndef (Value.varr [sampleAllergen])) = true :=
  C10_update_allergens_objects.2.2.2 [("allergens", Value.varr [sampleAllergen])]
    (Value.varr [sampleAllergen]) (by decide) rfl
